import Mathlib

/-!
Shallow embedding of the Discord-Finance-Bot debt ledger
(src/database.py and src/cogs/finance.py).

Money amounts are stored in the schema as `DECIMAL(12, 2)`; they are
modelled here as exact rationals (`Rat`).  Identifiers (users, messages,
channels) are modelled as `Nat`, timestamps as `Nat` seconds.
-/

namespace DiscordFinanceBot

/-- A row of the `debts` table (src/database.py, init_db). -/
structure Debt where
  id : Nat
  creditor_id : Nat
  debtor_id : Nat
  amount : Rat
  note : Option String
  created_at : Nat
deriving Repr, DecidableEq

/-- A row of the `pending_requests` table (src/database.py, init_db). -/
structure PendingRequest where
  message_id : Nat
  channel_id : Nat
  creditor_id : Nat
  debtor_id : Nat
  amount : Rat
  note : Option String
  expires_at : Nat
  reminded : Bool
  created_at : Nat
deriving Repr, DecidableEq

/-- Modelled from the spec: src/cogs/finance.py stores pending payments
through `db.add_pending_payment` (message_id, channel_id, creditor_id,
debtor_id, amount, expires_at), but src/database.py defines no
`pending_payments` table.  Shape follows the spec ("Same shape as
PendingRequest with roles reversed") and the call site, which passes no
note. -/
structure PendingPayment where
  message_id : Nat
  channel_id : Nat
  creditor_id : Nat
  debtor_id : Nat
  amount : Rat
  expires_at : Nat
  reminded : Bool
  created_at : Nat
deriving Repr, DecidableEq

/-- The database state: the tables created by init_db, the SERIAL counter
for `debts.id`, and the clock (`NOW()`). -/
structure DbState where
  debts : List Debt
  pending_requests : List PendingRequest
  pending_payments : List PendingPayment
  next_debt_id : Nat
  now : Nat
deriving Repr, DecidableEq

/-- The allocation loop of `apply_payment` (src/database.py lines 159-174),
acting on the rows returned by
`SELECT id, amount FROM debts WHERE creditor_id = $1 AND debtor_id = $2
ORDER BY created_at ASC FOR UPDATE`.
The loop keeps `remaining` as the Python float argument while the fetched
row amounts are asyncpg `decimal.Decimal` values.  The float-vs-Decimal
comparisons on lines 161 and 163 are legal Python, but the delete branch's
`remaining -= row["amount"]` on line 164 subtracts a Decimal from a float
and raises TypeError, aborting the enclosing `conn.transaction()` so that
every statement of the allocation rolls back.  The loop therefore
completes (`some (rows, remainder)`) only when it never meets a row whose
amount fits the remainder: empty table (remainder returned whole),
non-positive remainder (rows untouched), or a first row strictly larger
than the remainder (that row reduced in place, remainder 0, later rows
never reached because the remainder is exhausted).  A remainder covering
the oldest row raises: `none`. -/
def apply_payment : List Debt → Rat → Option (List Debt × Rat)
  | [], remaining => some ([], remaining)
  | row :: rows, remaining =>
    if remaining ≤ 0 then some (row :: rows, remaining)
    else if row.amount ≤ remaining then none
    else some ({ row with amount := row.amount - remaining } :: rows, 0)

/-- Sum of the `amount` column over a list of debt rows. -/
def debt_sum : List Debt → Rat
  | [] => 0
  | d :: ds => d.amount + debt_sum ds

/-- `add_debt` (src/database.py lines 113-131): INSERT INTO debts; the id
comes from the SERIAL counter and created_at defaults to NOW(). -/
def add_debt (s : DbState) (creditor_id debtor_id : Nat) (amount : Rat)
    (note : Option String) : DbState :=
  { s with
    debts := s.debts ++
      [{ id := s.next_debt_id, creditor_id := creditor_id,
         debtor_id := debtor_id, amount := amount, note := note,
         created_at := s.now }],
    next_debt_id := s.next_debt_id + 1 }

/-- `get_pending_request` (src/database.py lines 66-72):
SELECT * FROM pending_requests WHERE message_id = $1. -/
def get_pending_request (s : DbState) (message_id : Nat) :
    Option PendingRequest :=
  s.pending_requests.find? fun r => r.message_id == message_id

/-- `delete_pending_request` (src/database.py lines 75-79):
DELETE FROM pending_requests WHERE message_id = $1. -/
def delete_pending_request (s : DbState) (message_id : Nat) : DbState :=
  { s with
    pending_requests :=
      s.pending_requests.filter fun r => r.message_id != message_id }

/-- `add_pending_request` (src/database.py lines 44-63): INSERT INTO
pending_requests; `reminded` defaults to FALSE, created_at to NOW(). -/
def add_pending_request (s : DbState) (message_id channel_id : Nat)
    (creditor_id debtor_id : Nat) (amount : Rat) (note : Option String)
    (expires_at : Nat) : DbState :=
  { s with
    pending_requests := s.pending_requests ++
      [{ message_id := message_id, channel_id := channel_id,
         creditor_id := creditor_id, debtor_id := debtor_id,
         amount := amount, note := note, expires_at := expires_at,
         reminded := false, created_at := s.now }] }

/-- Modelled from the spec: `db.get_pending_payment` is called at
src/cogs/finance.py lines 120-122 but src/database.py does not define it;
CRUD keyed by message identity, per the spec. -/
def get_pending_payment (s : DbState) (message_id : Nat) :
    Option PendingPayment :=
  s.pending_payments.find? fun p => p.message_id == message_id

/-- Modelled from the spec: `db.delete_pending_payment` is called at
src/cogs/finance.py line 142 but src/database.py does not define it. -/
def delete_pending_payment (s : DbState) (message_id : Nat) : DbState :=
  { s with
    pending_payments :=
      s.pending_payments.filter fun p => p.message_id != message_id }

/-- Modelled from the spec: `db.add_pending_payment` is called at
src/cogs/finance.py lines 383-391 but src/database.py does not define it;
the insert mirrors `add_pending_request` without a note. -/
def add_pending_payment (s : DbState) (message_id channel_id : Nat)
    (creditor_id debtor_id : Nat) (amount : Rat) (expires_at : Nat) :
    DbState :=
  { s with
    pending_payments := s.pending_payments ++
      [{ message_id := message_id, channel_id := channel_id,
         creditor_id := creditor_id, debtor_id := debtor_id,
         amount := amount, expires_at := expires_at,
         reminded := false, created_at := s.now }] }

/-- Insertion step for ordering debt rows by `created_at` ascending. -/
def insert_by_created (d : Debt) : List Debt → List Debt
  | [] => [d]
  | e :: es =>
    if d.created_at ≤ e.created_at then d :: e :: es
    else e :: insert_by_created d es

/-- ORDER BY created_at ASC over a list of debt rows. -/
def sort_by_created : List Debt → List Debt
  | [] => []
  | d :: ds => insert_by_created d (sort_by_created ds)

/-- The SELECT of `apply_payment` (src/database.py lines 148-157): the
(creditor, debtor) pair's debt rows, oldest first. -/
def pair_debts (s : DbState) (creditor_id debtor_id : Nat) : List Debt :=
  sort_by_created (s.debts.filter fun d =>
    d.creditor_id == creditor_id && d.debtor_id == debtor_id)

/-- `apply_payment` (src/database.py lines 134-174) acting on the whole
database state: run the allocation loop on the pair's rows; on completion
the surviving rows are written back (UPDATE by id) and rows of other
pairs are untouched; on the TypeError the transaction rolls back, the
table is unchanged, and the exception propagates to the caller
(`none`). -/
def apply_payment_db (s : DbState) (creditor_id debtor_id : Nat)
    (amount : Rat) : Option (DbState × Rat) :=
  match apply_payment (pair_debts s creditor_id debtor_id) amount with
  | none => none
  | some out =>
    some ({ s with
            debts := (s.debts.filter fun d =>
              !(d.creditor_id == creditor_id && d.debtor_id == debtor_id))
              ++ out.1 },
          out.2)

/-- Outcome reported by a confirm/deny button handler. -/
inductive Outcome where
  | Confirmed
  | Denied
  | AlreadyResolved
  | NotAuthorized
deriving Repr, DecidableEq

/-- `ConfirmDebtView.confirm` (src/cogs/finance.py lines 31-69): look the
pending request up by message id; if absent report "already resolved"; if
the actor is not the debtor report that only the debtor may confirm;
otherwise add the debt and delete the pending row. -/
def confirm_debt_click (s : DbState) (message_id actor_id : Nat) :
    Outcome × DbState :=
  match get_pending_request s message_id with
  | none => (.AlreadyResolved, s)
  | some req =>
    if actor_id ≠ req.debtor_id then (.NotAuthorized, s)
    else
      (.Confirmed,
       delete_pending_request
         (add_debt s req.creditor_id req.debtor_id req.amount req.note)
         message_id)

/-- `ConfirmDebtView.deny` (src/cogs/finance.py lines 74-104): same
re-check and authorization; deletes the pending row with no ledger
effect. -/
def deny_debt_click (s : DbState) (message_id actor_id : Nat) :
    Outcome × DbState :=
  match get_pending_request s message_id with
  | none => (.AlreadyResolved, s)
  | some req =>
    if actor_id ≠ req.debtor_id then (.NotAuthorized, s)
    else (.Denied, delete_pending_request s message_id)

/-- `ConfirmPaymentView.confirm` (src/cogs/finance.py lines 117-153), its
pending-payment store calls modelled from the spec (absent from
src/database.py): re-check, authorize the creditor, run the allocator,
delete the pending row.  When `db.apply_payment` raises (the
float-vs-Decimal TypeError), the exception propagates before
`db.delete_pending_payment` runs: no outcome is reported (`none`) and the
state is unchanged — the allocation rolled back and the pending row is
still present. -/
def confirm_payment_click (s : DbState) (message_id actor_id : Nat) :
    Option Outcome × DbState :=
  match get_pending_payment s message_id with
  | none => (some .AlreadyResolved, s)
  | some pay =>
    if actor_id ≠ pay.creditor_id then (some .NotAuthorized, s)
    else
      match apply_payment_db s pay.creditor_id pay.debtor_id pay.amount with
      | none => (none, s)
      | some out =>
        (some .Confirmed, delete_pending_payment out.1 message_id)

/-- `ConfirmPaymentView.deny` (src/cogs/finance.py lines 158-187), its
pending-payment store calls modelled from the spec: re-check, authorize
the creditor, delete the pending row with no ledger effect. -/
def deny_payment_click (s : DbState) (message_id actor_id : Nat) :
    Outcome × DbState :=
  match get_pending_payment s message_id with
  | none => (.AlreadyResolved, s)
  | some pay =>
    if actor_id ≠ pay.creditor_id then (.NotAuthorized, s)
    else (.Denied, delete_pending_payment s message_id)

/-- Outcome of a `/request` or `/pay` slash command. -/
inductive CommandOutcome where
  | ValidationError
  | Created
deriving Repr, DecidableEq

/-- `round(amount, 2)` applied at the insert sites
(src/cogs/finance.py lines 331 and 389): rounding to 2 decimal places. -/
def round2 (q : Rat) : Rat := (⌊q * 100 + 1 / 2⌋ : Int) / 100

/-- Seconds in `timedelta(days=EXPIRY_DAYS)` with EXPIRY_DAYS = 1. -/
def expiry_window : Nat := 86400

/-- `Finance.request` (src/cogs/finance.py lines 287-334): reject
self-targeting, then non-positive amounts, before inserting the pending
request (amount rounded to 2 decimals, expiry = now + 1 day). -/
def request_command (s : DbState) (actor_id target_id : Nat) (amount : Rat)
    (note : Option String) (message_id channel_id : Nat) :
    CommandOutcome × DbState :=
  if target_id = actor_id then (.ValidationError, s)
  else if amount ≤ 0 then (.ValidationError, s)
  else
    (.Created,
     add_pending_request s message_id channel_id actor_id target_id
       (round2 amount) note (s.now + expiry_window))

/-- `Finance.pay` (src/cogs/finance.py lines 347-391): reject
self-targeting, then non-positive amounts, before inserting the pending
payment (creditor is the target, debtor the actor); the insert itself is
modelled from the spec since src/database.py lacks `add_pending_payment`. -/
def pay_command (s : DbState) (actor_id target_id : Nat) (amount : Rat)
    (message_id channel_id : Nat) : CommandOutcome × DbState :=
  if target_id = actor_id then (.ValidationError, s)
  else if amount ≤ 0 then (.ValidationError, s)
  else
    (.Created,
     add_pending_payment s message_id channel_id target_id actor_id
       (round2 amount) (s.now + expiry_window))

/-- `get_requests_to_remind` (src/database.py lines 82-92):
SELECT * FROM pending_requests WHERE reminded = FALSE
AND expires_at <= NOW() + INTERVAL '1 hour' AND expires_at > NOW(). -/
def get_requests_to_remind (s : DbState) (now : Nat) : List PendingRequest :=
  s.pending_requests.filter fun r =>
    !r.reminded && decide (r.expires_at ≤ now + 3600) && decide (now < r.expires_at)

/-- `mark_reminded` (src/database.py lines 95-100):
UPDATE pending_requests SET reminded = TRUE WHERE message_id = $1. -/
def mark_reminded (s : DbState) (message_id : Nat) : DbState :=
  { s with
    pending_requests := s.pending_requests.map fun r =>
      if r.message_id = message_id then { r with reminded := true } else r }

/-- `get_expired_requests` (src/database.py lines 103-108):
SELECT * FROM pending_requests WHERE expires_at <= NOW(). -/
def get_expired_requests (s : DbState) (now : Nat) : List PendingRequest :=
  s.pending_requests.filter fun r => decide (r.expires_at ≤ now)

/-- Steps 1-2 of `Finance.check_pending_requests`
(src/cogs/finance.py lines 202-235): notify and mark every request
selected for reminding (the mark runs whether or not the channel
resolved), then delete every expired request.  Returns the message ids
notified and the resulting state. -/
def check_pending_requests_sweep (s : DbState) (now : Nat) :
    List Nat × DbState :=
  let to_remind := get_requests_to_remind s now
  let s1 := to_remind.foldl (fun st r => mark_reminded st r.message_id) s
  let expired := get_expired_requests s1 now
  let s2 := expired.foldl (fun st r => delete_pending_request st r.message_id) s1
  (to_remind.map fun r => r.message_id, s2)

/-- The store steps a confirm handler issues, in order.  Each is a single
SQL statement on its own pool connection (src/cogs/finance.py lines
50-57: `db.add_debt` then `db.delete_pending_request`; neither shares a
transaction with the other). -/
inductive StoreOp where
  | opAddDebt (creditor_id debtor_id : Nat) (amount : Rat) (note : Option String)
  | opDeletePendingRequest (message_id : Nat)
deriving Repr, DecidableEq, Inhabited

/-- Execute one store step. -/
def exec_op (s : DbState) : StoreOp → DbState
  | .opAddDebt c d amt note => add_debt s c d amt note
  | .opDeletePendingRequest mid => delete_pending_request s mid

/-- The two store steps of `ConfirmDebtView.confirm`
(src/cogs/finance.py lines 50-57). -/
def confirm_debt_ops (req : PendingRequest) : List StoreOp :=
  [.opAddDebt req.creditor_id req.debtor_id req.amount req.note,
   .opDeletePendingRequest req.message_id]

/-- Every state reached while executing a list of store steps: the state
before each step and the final state. -/
def states_along (s : DbState) : List StoreOp → List DbState
  | [] => [s]
  | op :: ops => s :: states_along (exec_op s op) ops

/-- `get_owed_to_user` / `get_owed_by_user` building block and the sums of
`get_balance_between` (src/database.py lines 209-222):
COALESCE(SUM(amount), 0) over the pair's rows. -/
def pair_sum (debts : List Debt) (creditor_id debtor_id : Nat) : Rat :=
  debt_sum (debts.filter fun d =>
    d.creditor_id == creditor_id && d.debtor_id == debtor_id)

/-- `get_balance_between` (src/database.py lines 209-222): the sum owed to
`user_a` by `user_b` minus the sum owed to `user_b` by `user_a`. -/
def get_balance_between (debts : List Debt) (user_a user_b : Nat) : Rat :=
  pair_sum debts user_a user_b - pair_sum debts user_b user_a

/-- The tables `init_db` creates (src/database.py lines 9-39). -/
def init_db_tables : List String := ["debts", "pending_requests"]

/-- The functions src/database.py defines. -/
def database_module_defs : List String :=
  ["create_pool", "init_db", "add_pending_request", "get_pending_request",
   "delete_pending_request", "get_requests_to_remind", "mark_reminded",
   "get_expired_requests", "add_debt", "apply_payment", "get_owed_to_user",
   "get_owed_by_user", "get_balance_between"]

/-- The pending-payment store functions src/cogs/finance.py invokes
(lines 120, 142, 177, 238, 248, 251, 269 and 383). -/
def pending_payment_store_calls : List String :=
  ["add_pending_payment", "get_pending_payment", "delete_pending_payment",
   "get_payments_to_remind", "mark_payment_reminded", "get_expired_payments"]

/-! Concrete rows and states used to evaluate the theorems on explicit
inputs. -/

/-- A single $5 debt row. -/
def sample_debt : Debt :=
  { id := 1, creditor_id := 1, debtor_id := 2, amount := 5, note := none,
    created_at := 0 }

/-- The $10 day-1 debt of the oldest-first example. -/
def day1_debt : Debt :=
  { id := 1, creditor_id := 1, debtor_id := 2, amount := 10, note := none,
    created_at := 1 }

/-- The $5 day-2 debt of the oldest-first example. -/
def day2_debt : Debt :=
  { id := 2, creditor_id := 1, debtor_id := 2, amount := 5, note := none,
    created_at := 2 }

/-- A pending request awaiting the debtor's confirmation. -/
def sample_request : PendingRequest :=
  { message_id := 100, channel_id := 7, creditor_id := 1, debtor_id := 2,
    amount := 5, note := none, expires_at := 4000, reminded := false,
    created_at := 0 }

/-- A pending payment awaiting the creditor's confirmation. -/
def sample_payment : PendingPayment :=
  { message_id := 200, channel_id := 7, creditor_id := 1, debtor_id := 2,
    amount := 4, expires_at := 4000, reminded := false, created_at := 0 }

/-- A database state holding the sample rows. -/
def sample_state : DbState :=
  { debts := [sample_debt], pending_requests := [sample_request],
    pending_payments := [sample_payment], next_debt_id := 2, now := 100 }

/-- The state reached after only the first store step of
`ConfirmDebtView.confirm` on `sample_state` (the debt insert, before the
pending-row delete). -/
def confirm_mid_state : DbState :=
  exec_op sample_state
    (StoreOp.opAddDebt sample_request.creditor_id sample_request.debtor_id
      sample_request.amount sample_request.note)

/-- `sample_debt` after a completing $3 partial payment. -/
def reduced_debt : Debt := { sample_debt with amount := 2 }

/-- A pending payment whose amount covers the oldest debt row (the
allocation against it raises). -/
def cover_payment : PendingPayment :=
  { message_id := 201, channel_id := 7, creditor_id := 1, debtor_id := 2,
    amount := 6, expires_at := 4000, reminded := false, created_at := 0 }

/-- A state holding `sample_debt` and `cover_payment`. -/
def cover_state : DbState :=
  { debts := [sample_debt], pending_requests := [],
    pending_payments := [cover_payment], next_debt_id := 2, now := 100 }

/-- A pending request inside the 1-hour reminder horizon. -/
def remind_request : PendingRequest :=
  { message_id := 300, channel_id := 7, creditor_id := 1, debtor_id := 2,
    amount := 5, note := none, expires_at := 1800, reminded := false,
    created_at := 0 }

/-- A state holding only `remind_request`. -/
def remind_state : DbState :=
  { debts := [], pending_requests := [remind_request],
    pending_payments := [], next_debt_id := 1, now := 0 }

/-! Evaluations and theorems about the allocation loop. -/

/-- Claim C1 (how the code fails it): a $12 payment against a single $5
debt reaches the delete branch, where `remaining -= row["amount"]`
raises TypeError and the transaction rolls back, so no overpayment is
returned and the conservation equation has nothing to hold of; against
zero existing debt the loop body never runs and the full $12 comes back
as overpayment, as the claim states for that case. -/
theorem apply_payment_covering_raises :
    apply_payment [sample_debt] 12 = none
      ∧ apply_payment ([] : List Debt) 12 = some ([], 12) := by
  constructor
  · norm_num [apply_payment, sample_debt]
  · rfl

/-- Claim C2 (how the code fails it): on debts of $10 (day 1) and $5
(day 2), the claimed $12 payment meets the day-1 row's delete branch and
raises TypeError (nothing is deleted or reduced; the transaction rolls
back), while a $7 payment shows the executable oldest-first path: the
day-1 row is reduced to $3, the day-2 row is untouched, overpayment 0. -/
theorem apply_payment_example_raises :
    apply_payment [day1_debt, day2_debt] 12 = none
      ∧ apply_payment [day1_debt, day2_debt] 7
        = some ([{ day1_debt with amount := 3 }, day2_debt], 0) := by
  constructor
  · norm_num [apply_payment, day1_debt]
  · norm_num [apply_payment, day1_debt, day2_debt]

/-- Claim C7 counterexample: a payment exactly equal to the single $5
row's amount does not delete the row; that input takes the delete
branch, which raises TypeError (float minus Decimal) and rolls the
transaction back, so the exact-zero deletion the claim asserts never
happens. -/
theorem exact_match_not_deleted_cex :
    apply_payment [sample_debt] 5 = none := by
  norm_num [apply_payment, sample_debt]

/-- Claim C7 as amended: every Debt row stays strictly positive.  A
completing allocation only reduces the oldest row by a remainder
strictly smaller than its amount, leaving it strictly positive, and
touches nothing else; an allocation whose remainder would consume a row
(reduce it to exactly 0 or below) raises TypeError and rolls back
instead of deleting or zeroing it; and inserting a positive amount into
a table of positive amounts keeps every amount positive (the schema also
enforces CHECK (amount > 0) on `debts`). -/
theorem positive_debt_invariant (rows : List Debt) (p : Rat)
    (out : List Debt × Rat) (row : Debt) (rest : List Debt) (s : DbState)
    (creditor_id debtor_id : Nat) (a : Rat) (note : Option String)
    (hpos : ∀ d ∈ rows, 0 < d.amount)
    (hsome : apply_payment rows p = some out)
    (hrow : 0 < row.amount)
    (hs : ∀ d ∈ s.debts, 0 < d.amount) (ha : 0 < a) :
    (∀ d ∈ out.1, 0 < d.amount)
      ∧ apply_payment (row :: rest) row.amount = none
      ∧ (0 < p → p < row.amount →
          apply_payment (row :: rest) p
              = some ({ row with amount := row.amount - p } :: rest, 0)
            ∧ 0 < row.amount - p)
      ∧ (∀ d ∈ (add_debt s creditor_id debtor_id a note).debts,
          0 < d.amount) := by
  refine ⟨?_, ?_, ?_, ?_⟩
  · cases rows with
    | nil =>
      simp only [apply_payment, Option.some.injEq] at hsome
      subst hsome
      intro d hd
      exact absurd hd (List.not_mem_nil d)
    | cons r0 rs =>
      by_cases h0 : p ≤ 0
      · simp only [apply_payment, if_pos h0, Option.some.injEq] at hsome
        subst hsome
        exact hpos
      · by_cases h1 : r0.amount ≤ p
        · simp only [apply_payment, if_neg h0, if_pos h1] at hsome
          cases hsome
        · simp only [apply_payment, if_neg h0, if_neg h1,
            Option.some.injEq] at hsome
          subst hsome
          intro d hd
          rcases List.mem_cons.mp hd with rfl | h2
          · show 0 < r0.amount - p
            exact sub_pos.mpr (not_le.mp h1)
          · exact hpos d (List.mem_cons_of_mem _ h2)
  · simp only [apply_payment, if_neg (not_le.mpr hrow),
      if_pos (le_refl row.amount)]
  · intro hp hlt
    simp only [apply_payment, if_neg (not_le.mpr hp),
      if_neg (not_le.mpr hlt)]
    exact ⟨trivial, sub_pos.mpr hlt⟩
  · intro d hd
    rcases List.mem_append.mp hd with h1 | h2
    · exact hs d h1
    · rcases List.mem_singleton.mp h2 with rfl
      exact ha

/-- Witness for the amended C7: a completing $3 payment against the $5
sample debt, the raising exact-match case, and a $4 insert into the
sample table. -/
theorem positive_debt_invariant_witness :
    (∀ d ∈ [reduced_debt], 0 < d.amount)
      ∧ apply_payment (sample_debt :: []) sample_debt.amount = none
      ∧ ((0 : Rat) < 3 → (3 : Rat) < sample_debt.amount →
          apply_payment (sample_debt :: []) 3
              = some ({ sample_debt with
                        amount := sample_debt.amount - 3 } :: [], 0)
            ∧ 0 < sample_debt.amount - 3)
      ∧ (∀ d ∈ (add_debt sample_state 1 2 4 none).debts, 0 < d.amount) :=
  positive_debt_invariant [sample_debt] 3 ([reduced_debt], 0) sample_debt
    [] sample_state 1 2 4 none (by norm_num [sample_debt])
    (by norm_num [apply_payment, sample_debt, reduced_debt])
    (by norm_num [sample_debt]) (by norm_num [sample_state, sample_debt])
    (by norm_num)

/-- Claim C10: net-balance antisymmetry.  For every debt table and every
pair of users, `get_balance_between a b` is the negation of
`get_balance_between b a`. -/
theorem get_balance_between_antisymm (debts : List Debt) (a b : Nat) :
    get_balance_between debts a b = - get_balance_between debts b a := by
  simp [get_balance_between, neg_sub]

/-- Claim C4 (how the code fails it): `init_db` creates no
`pending_payments` table and src/database.py defines none of the
pending-payment store functions src/cogs/finance.py invokes, so no
PendingPayment row can ever be created by `/pay`. -/
theorem pending_payment_store_missing :
    "pending_payments" ∉ init_db_tables
      ∧ ∀ f ∈ pending_payment_store_calls, f ∉ database_module_defs := by
  decide

/-- Witness for C4: the insert function `/pay` calls is absent from the
store module. -/
theorem pending_payment_store_missing_witness :
    "add_pending_payment" ∉ database_module_defs :=
  pending_payment_store_missing.2 "add_pending_payment" (by decide)

/-- Claim C8: validation rejects before mutation.  A `/request` or `/pay`
whose target equals the actor, or whose amount is non-positive, returns a
validation error and leaves the store untouched. -/
theorem validation_rejects_before_mutation (s : DbState)
    (actor_id target_id : Nat) (amount : Rat) (note : Option String)
    (message_id channel_id : Nat)
    (h : target_id = actor_id ∨ amount ≤ 0) :
    request_command s actor_id target_id amount note message_id channel_id
        = (.ValidationError, s)
      ∧ pay_command s actor_id target_id amount message_id channel_id
        = (.ValidationError, s) := by
  rcases h with h | h
  · simp [request_command, pay_command, h]
  · by_cases ht : target_id = actor_id
    · simp [request_command, pay_command, ht]
    · simp [request_command, pay_command, ht, h]

/-- Witness for C8: a self-targeted `/request` and `/pay`. -/
theorem validation_rejects_before_mutation_witness :
    request_command sample_state 1 1 5 none 300 7
        = (.ValidationError, sample_state)
      ∧ pay_command sample_state 1 1 5 300 7
        = (.ValidationError, sample_state) :=
  validation_rejects_before_mutation sample_state 1 1 5 none 300 7
    (Or.inl rfl)

/-- After `DELETE FROM pending_requests WHERE message_id = $1`, the lookup
by that message id returns no row. -/
lemma get_pending_request_delete (s : DbState) (mid : Nat) :
    get_pending_request (delete_pending_request s mid) mid = none := by
  simp only [get_pending_request, delete_pending_request]
  rw [List.find?_eq_none]
  intro r hr
  have hne := (List.mem_filter.mp hr).2
  simp only [bne_iff_ne, ne_eq] at hne
  simp only [beq_iff_eq]
  exact hne

/-- Same for the (spec-modelled) pending-payment delete. -/
lemma get_pending_payment_delete (s : DbState) (mid : Nat) :
    get_pending_payment (delete_pending_payment s mid) mid = none := by
  simp only [get_pending_payment, delete_pending_payment]
  rw [List.find?_eq_none]
  intro p hp
  have hne := (List.mem_filter.mp hp).2
  simp only [bne_iff_ne, ne_eq] at hne
  simp only [beq_iff_eq]
  exact hne

/-- Claim C6 counterexample: the creditor's first confirm click on
`cover_state`'s pending payment does not yield Confirmed — the $6
allocation covers the $5 debt, raises TypeError and rolls back before
`db.delete_pending_payment` runs — and the pending row is still present
afterwards, so a second click is a fresh attempt, not AlreadyResolved. -/
theorem confirm_payment_raises_cex :
    confirm_payment_click cover_state 201 1 = (none, cover_state)
      ∧ get_pending_payment
          (confirm_payment_click cover_state 201 1).2 201
        = some cover_payment := by
  have h : confirm_payment_click cover_state 201 1 = (none, cover_state) := by
    norm_num [confirm_payment_click, get_pending_payment, cover_state,
      cover_payment, apply_payment_db, pair_debts, sort_by_created,
      insert_by_created, apply_payment, sample_debt]
  exact ⟨h, by rw [h]; rfl⟩

/-- Claim C6 as amended: on pending requests a second confirm or deny
click reports AlreadyResolved without mutation and confirm inserts
exactly one Debt; the same re-check holds for a pending-payment deny.  A
pending-payment confirm behaves that way exactly when its allocation
completes; when the allocation raises (remainder covering the oldest
debt row) the click reports no outcome and leaves the state — the
pending row included — unchanged. -/
theorem confirm_deny_idempotent (s : DbState) (mid actor_id : Nat)
    (req : PendingRequest) (t : DbState) (pmid pactor_id : Nat)
    (pay : PendingPayment)
    (hreq : get_pending_request s mid = some req)
    (hact : actor_id = req.debtor_id)
    (hpay : get_pending_payment t pmid = some pay)
    (hpact : pactor_id = pay.creditor_id) :
    (confirm_debt_click s mid actor_id).1 = .Confirmed
      ∧ confirm_debt_click (confirm_debt_click s mid actor_id).2 mid actor_id
          = (.AlreadyResolved, (confirm_debt_click s mid actor_id).2)
      ∧ (confirm_debt_click s mid actor_id).2.debts.length
          = s.debts.length + 1
      ∧ (deny_debt_click s mid actor_id).1 = .Denied
      ∧ deny_debt_click (deny_debt_click s mid actor_id).2 mid actor_id
          = (.AlreadyResolved, (deny_debt_click s mid actor_id).2)
      ∧ (deny_debt_click s mid actor_id).2.debts = s.debts
      ∧ (∀ u, apply_payment_db t pay.creditor_id pay.debtor_id pay.amount
            = some u →
          confirm_payment_click t pmid pactor_id
              = (some .Confirmed, delete_pending_payment u.1 pmid)
            ∧ confirm_payment_click (delete_pending_payment u.1 pmid)
                  pmid pactor_id
                = (some .AlreadyResolved, delete_pending_payment u.1 pmid))
      ∧ (apply_payment_db t pay.creditor_id pay.debtor_id pay.amount = none →
          confirm_payment_click t pmid pactor_id = (none, t))
      ∧ (deny_payment_click t pmid pactor_id).1 = .Denied
      ∧ deny_payment_click (deny_payment_click t pmid pactor_id).2
            pmid pactor_id
          = (.AlreadyResolved, (deny_payment_click t pmid pactor_id).2) := by
  have hc : confirm_debt_click s mid actor_id
      = (.Confirmed,
         delete_pending_request
           (add_debt s req.creditor_id req.debtor_id req.amount req.note)
           mid) := by
    simp [confirm_debt_click, hreq, hact]
  have hd : deny_debt_click s mid actor_id
      = (.Denied, delete_pending_request s mid) := by
    simp [deny_debt_click, hreq, hact]
  have hpd : deny_payment_click t pmid pactor_id
      = (.Denied, delete_pending_payment t pmid) := by
    simp [deny_payment_click, hpay, hpact]
  refine ⟨by rw [hc], ?_, ?_, by rw [hd], ?_, by rw [hd]; rfl, ?_, ?_,
    by rw [hpd], ?_⟩
  · rw [hc]
    simp [confirm_debt_click, get_pending_request_delete]
  · rw [hc]
    simp [delete_pending_request, add_debt]
  · rw [hd]
    simp [deny_debt_click, get_pending_request_delete]
  · intro u hu
    constructor
    · simp [confirm_payment_click, hpay, hpact, hu]
    · simp [confirm_payment_click, get_pending_payment_delete]
  · intro hnone
    simp [confirm_payment_click, hpay, hpact, hnone]
  · rw [hpd]
    simp [deny_payment_click, get_pending_payment_delete]

/-- Witness for C6: the sample pending request confirmed by its debtor. -/
theorem confirm_deny_idempotent_witness :
    (confirm_debt_click sample_state 100 2).1 = Outcome.Confirmed :=
  (confirm_deny_idempotent sample_state 100 2 sample_request sample_state
    200 1 sample_payment rfl rfl rfl rfl).1

/-- Claim C3 counterexample: `ConfirmDebtView.confirm` issues its two
store steps separately, and on the sample state the reachable
intermediate state (after `add_debt`, before `delete_pending_request`)
already holds the new Debt while the confirmed pending request is still
present — the atomicity the claim asserts fails. -/
theorem confirm_not_atomic_cex :
    states_along sample_state (confirm_debt_ops sample_request)
        = [sample_state, confirm_mid_state,
           delete_pending_request confirm_mid_state 100]
      ∧ confirm_mid_state.debts.length = sample_state.debts.length + 1
      ∧ sample_request ∈ confirm_mid_state.pending_requests := by
  refine ⟨rfl, rfl, ?_⟩
  exact List.mem_singleton.mpr rfl

/-- Claim C3 as amended: the ledger mutation and the pending deletion of
a request confirm are two sequential store operations, not one atomic
transaction; the intermediate state after the first has the Debt inserted
while the pending row is still present, and only the final state has the
row deleted. -/
theorem confirm_debt_two_step (s : DbState) (req : PendingRequest)
    (hmem : req ∈ s.pending_requests) :
    states_along s (confirm_debt_ops req)
        = [s,
           add_debt s req.creditor_id req.debtor_id req.amount req.note,
           delete_pending_request
             (add_debt s req.creditor_id req.debtor_id req.amount req.note)
             req.message_id]
      ∧ (add_debt s req.creditor_id req.debtor_id req.amount
            req.note).debts.length = s.debts.length + 1
      ∧ req ∈ (add_debt s req.creditor_id req.debtor_id req.amount
            req.note).pending_requests
      ∧ ∀ r ∈ (delete_pending_request
            (add_debt s req.creditor_id req.debtor_id req.amount req.note)
            req.message_id).pending_requests,
          r.message_id ≠ req.message_id := by
  refine ⟨rfl, by simp [add_debt], hmem, ?_⟩
  intro r hr
  have hne := (List.mem_filter.mp hr).2
  simpa using hne

/-- Witness for the amended C3: the sample state. -/
theorem confirm_debt_two_step_witness :
    (add_debt sample_state sample_request.creditor_id
        sample_request.debtor_id sample_request.amount
        sample_request.note).debts.length
      = sample_state.debts.length + 1 :=
  (confirm_debt_two_step sample_state sample_request
    (List.mem_singleton.mpr rfl)).2.1

/-- `mark_reminded` sets the flag of every row with the given message id. -/
lemma mark_reminded_sets (s : DbState) (m : Nat) :
    ∀ r ∈ (mark_reminded s m).pending_requests,
      r.message_id = m → r.reminded = true := by
  intro r hr hm
  simp only [mark_reminded, List.mem_map] at hr
  rcases hr with ⟨r0, h0, rfl⟩
  by_cases hc : r0.message_id = m
  · simp [hc]
  · simp only [if_neg hc] at hm ⊢
    exact absurd hm hc

/-- `mark_reminded` never unsets the flag: any id whose rows were all
reminded keeps that property. -/
lemma mark_reminded_keeps_true (s : DbState) (m m2 : Nat)
    (h : ∀ r ∈ s.pending_requests, r.message_id = m2 → r.reminded = true) :
    ∀ r ∈ (mark_reminded s m).pending_requests,
      r.message_id = m2 → r.reminded = true := by
  intro r hr hm2
  simp only [mark_reminded, List.mem_map] at hr
  rcases hr with ⟨r0, h0, rfl⟩
  by_cases hc : r0.message_id = m
  · simp [hc]
  · simp only [if_neg hc] at hm2 ⊢
    exact h r0 h0 hm2

/-- Folding `mark_reminded` over a list preserves "every row of this id is
reminded". -/
lemma fold_mark_preserves (l : List PendingRequest) (s : DbState) (m2 : Nat)
    (h : ∀ r ∈ s.pending_requests, r.message_id = m2 → r.reminded = true) :
    ∀ r ∈ (l.foldl (fun st r => mark_reminded st r.message_id)
        s).pending_requests,
      r.message_id = m2 → r.reminded = true := by
  induction l generalizing s with
  | nil => exact h
  | cons a rest ih =>
    simp only [List.foldl_cons]
    exact ih _ (mark_reminded_keeps_true s a.message_id m2 h)

/-- After folding `mark_reminded` over a selection, every row whose id is
among the selected ids is reminded. -/
lemma fold_mark_all (s : DbState) (l : List PendingRequest) (m : Nat)
    (hm : m ∈ l.map fun r => r.message_id) :
    ∀ r ∈ (l.foldl (fun st r => mark_reminded st r.message_id)
        s).pending_requests,
      r.message_id = m → r.reminded = true := by
  induction l generalizing s with
  | nil => simp at hm
  | cons a rest ih =>
    simp only [List.map_cons, List.mem_cons] at hm
    simp only [List.foldl_cons]
    rcases hm with rfl | hm
    · exact fold_mark_preserves rest (mark_reminded s a.message_id)
        a.message_id (mark_reminded_sets s a.message_id)
    · exact ih (mark_reminded s a.message_id) hm

/-- Deleting a pending row only removes rows. -/
lemma delete_pending_request_subset (s : DbState) (m : Nat) :
    ∀ r ∈ (delete_pending_request s m).pending_requests,
      r ∈ s.pending_requests := by
  intro r hr
  exact (List.mem_filter.mp hr).1

/-- Folding deletes only removes rows. -/
lemma fold_delete_subset (l : List PendingRequest) (s : DbState) :
    ∀ r ∈ (l.foldl (fun st r => delete_pending_request st r.message_id)
        s).pending_requests,
      r ∈ s.pending_requests := by
  induction l generalizing s with
  | nil => intro r hr; exact hr
  | cons a rest ih =>
    intro r hr
    simp only [List.foldl_cons] at hr
    exact delete_pending_request_subset s a.message_id r
      (ih (delete_pending_request s a.message_id) r hr)

/-- Claim C9: at-most-once reminder.  The sweep selects only rows with
reminded = false whose expiry is within one hour but not past; after a
sweep every notified id's rows are marked reminded; `mark_reminded` only
turns the flag from false to true, never resets it; and a second sweep
run never notifies an id the first run notified. -/
theorem reminder_at_most_once (s : DbState) (now now2 : Nat) :
    (∀ r ∈ get_requests_to_remind s now,
        r.reminded = false ∧ r.expires_at ≤ now + 3600 ∧ now < r.expires_at)
      ∧ (∀ m ∈ (check_pending_requests_sweep s now).1,
          ∀ r ∈ (check_pending_requests_sweep s now).2.pending_requests,
            r.message_id = m → r.reminded = true)
      ∧ (∀ mid, ∀ r ∈ (mark_reminded s mid).pending_requests,
          r.reminded = false →
            ∃ r0 ∈ s.pending_requests, r0.reminded = false ∧ r = r0)
      ∧ ∀ m ∈ (check_pending_requests_sweep
            (check_pending_requests_sweep s now).2 now2).1,
          m ∉ (check_pending_requests_sweep s now).1 := by
  have hsel : ∀ (t : DbState) (n : Nat), ∀ r ∈ get_requests_to_remind t n,
      r.reminded = false ∧ r ∈ t.pending_requests
        ∧ r.expires_at ≤ n + 3600 ∧ n < r.expires_at := by
    intro t n r hr
    rcases List.mem_filter.mp hr with ⟨hmem, hcond⟩
    simp only [Bool.and_eq_true, Bool.not_eq_true', decide_eq_true_eq]
      at hcond
    exact ⟨hcond.1.1, hmem, hcond.1.2, hcond.2⟩
  have hmarked : ∀ (t : DbState) (n : Nat),
      ∀ m ∈ (check_pending_requests_sweep t n).1,
        ∀ r ∈ (check_pending_requests_sweep t n).2.pending_requests,
          r.message_id = m → r.reminded = true := by
    intro t n m hm r hr hmid
    simp only [check_pending_requests_sweep] at hm hr
    exact fold_mark_all t _ m hm r (fold_delete_subset _ _ r hr) hmid
  refine ⟨fun r hr => ⟨(hsel s now r hr).1, (hsel s now r hr).2.2⟩,
    hmarked s now, ?_, ?_⟩
  · intro mid r hr hfalse
    simp only [mark_reminded, List.mem_map] at hr
    rcases hr with ⟨r0, h0, rfl⟩
    by_cases hc : r0.message_id = mid
    · simp [hc] at hfalse
    · simp only [if_neg hc] at hfalse ⊢
      exact ⟨r0, h0, hfalse, rfl⟩
  · intro m hm hm1
    simp only [check_pending_requests_sweep, List.mem_map] at hm
    rcases hm with ⟨r, hrsel, rfl⟩
    have h1 := (hsel _ now2 r hrsel).1
    have h2 := (hsel _ now2 r hrsel).2.1
    have h3 := hmarked s now r.message_id hm1 r h2 rfl
    rw [h1] at h3
    cases h3

/-- Witness for C9: the sample row inside the reminder horizon. -/
theorem reminder_at_most_once_witness :
    remind_request.reminded = false
      ∧ remind_request.expires_at ≤ 0 + 3600
      ∧ 0 < remind_request.expires_at :=
  (reminder_at_most_once remind_state 0 0).1 remind_request
    (by simp [get_requests_to_remind, remind_state, remind_request])

end DiscordFinanceBot
